import Mathlib

/-!
Shallow embedding of the stoney-baloney-verify request handlers.

The repository is a collection of near-duplicate serverless handlers:
eleven upload-handler variants (two documents in api/verify.js, one in
api/discord-interactions.js, and the documents in the unnamed parts) and
two Discord interaction handlers (the first document of
api/discord-interactions.js and unnamed part_000).

Each handler is modelled as a pure function from a request context to a
pair of the HTTP response and the trace of external events (database
select, database update, webhook post, vendor API call).  Network and
database results that the JavaScript obtains by awaiting promises are
oracle fields of the context (the looked-up row, the HTTP status of each
webhook post or role-grant call); the handler body mirrors the control
flow of the source line by line.
-/

namespace Stoney

/-- A JavaScript value as it appears in a supabase update payload:
booleans, strings, SQL null, or the dynamic current timestamp produced
by new Date().toISOString(). -/
inductive Val
  | vb (b : Bool)
  | vs (s : String)
  | vnull
  | vtime
deriving DecidableEq, Repr

/-- External events a handler can perform, in program order.
parseMp marks the multipart parse, checkUsed and checkExpiry mark the
evaluation of the used-flag and expiry checks on the looked-up row,
dbSelect and dbUpdate are supabase queries keyed by token, webhookPost
is a POST of the upload to a webhook URL, vendorCall is a Discord bot
API request, and vendorPar is two Discord bot API requests issued
concurrently via Promise.all. -/
inductive Event
  | parseMp
  | dbSelect (table : String) (cols : List String) (key : String)
  | checkUsed
  | checkExpiry
  | webhookPost (url : Option String)
  | vendorCall (path : String)
  | vendorPar (path1 path2 : String)
  | dbUpdate (table : String) (assigns : List (String × Val)) (key : String)
deriving DecidableEq, Repr

/-- The verification_tokens row as the handlers see it after a select.
expires_at is a three-way value: none is SQL null, some none is a
string that does not parse to a finite millisecond timestamp (NaN),
and some (some ms) is a string parsing to the finite timestamp ms. -/
structure Row where
  user_id : Option String := none
  webhook_url : Option String := none
  expires_at : Option (Option Int) := none
  used : Bool := false
deriving DecidableEq, Repr

/-- JavaScript truthiness of an optional string: undefined, null and
the empty string are falsy. -/
def truthy : Option String → Bool
  | none => false
  | some s => s != ""

/-- The value of the JavaScript expression (s or-else null): null when
s is undefined or empty, the string otherwise. -/
def jsOrNull : Option String → Val
  | none => .vnull
  | some s => if s == "" then .vnull else .vs s

/-- The value stored for a possibly-undefined string without an
or-else-null coercion (undefined becomes SQL null on the wire). -/
def optVal : Option String → Val
  | none => .vnull
  | some s => .vs s

/-- Template-literal stringification of a nullable value, as in
a backtick template around row.webhook_url: null prints as null. -/
def jsTemplate : Option String → String
  | none => "null"
  | some s => s

/-- The expiry test shared by the guarded handler variants:
if (row.expires_at) followed by Number.isFinite(expMs) and
Date.now() > expMs.  A null expires_at is skipped by the truthiness
guard; an unparsable string gives NaN which fails isFinite (or makes
the comparison false); a finite timestamp expires when now exceeds it. -/
def expiredGuarded (now : Int) : Option (Option Int) → Bool
  | none => false
  | some none => false
  | some (some ms) => now > ms

/-- The expiry test of the part_003 variant, which has no truthiness
guard: new Date(null).getTime() is 0 (the epoch), which is finite, so a
null expires_at is treated as expired whenever now is positive. -/
def expiredUnguarded (now : Int) : Option (Option Int) → Bool
  | none => now > 0
  | some none => false
  | some (some ms) => now > ms

/-- The wait=true URL rewrite of the second api/verify.js document:
append with an ampersand when the URL already has a query string. -/
def waitUrl (u : String) : String :=
  if u.contains '?' then u ++ "&wait=true" else u ++ "?wait=true"

/-- A 2xx HTTP status, matching checks of the form
status < 200 or status >= 300 (negated) and res.ok. -/
def is2xx (n : Nat) : Bool := 200 ≤ n && n < 300

/-- Request context for the upload handlers.  The oracle fields row,
webhook1 and webhook2 stand for the results of the awaited supabase
select and the webhook POSTs; now is Date.now() in milliseconds. -/
structure UploadCtx where
  method : String := "POST"
  envOk : Bool := true
  fetchOk : Bool := true
  parseErr : Bool := false
  token : Option String := none
  status : Option String := none
  docType : Option String := none
  filePresent : Bool := false
  fileSize : Nat := 0
  fileMime : Option String := none
  row : Option Row := none
  webhook1 : Nat := 0
  webhook2 : Nat := 0
  now : Int := 0
deriving Repr

/-- An upload-handler HTTP response: status code plus the error string
of the JSON payload, or the string success for a 200. -/
structure UResp where
  status : Nat
  tag : String
deriving DecidableEq, Repr

/-- Shared assignment list of the upload variants that log a
submission: submitted, submitted_at and ai_status (status or-else
null). -/
def submitAssigns (status : Option String) : List (String × Val) :=
  [("submitted", .vb true), ("submitted_at", .vtime), ("ai_status", jsOrNull status)]

/-- The JavaScript or-else with a string default, as in
uploaded.mimetype or-else image/png. -/
def jsOrDefault (o : Option String) (d : String) : String :=
  if truthy o then o.getD "" else d

/-- JavaScript String.startsWith, over the character lists. -/
def strStarts (p s : String) : Bool := List.isPrefixOf p.data s.data

/-- The multipart parser size limit configured in parseMultipart of the
second api/verify.js document: maxFileSize 4 * 1024 * 1024. -/
def verifyB_maxFileSize : Nat := 4 * 1024 * 1024

/-- The multipart parser size limit configured in part_006:
maxFileSize 4 * 1024 * 1024. -/
def part006_maxFileSize : Nat := 4 * 1024 * 1024

/-- Lookup-and-forward tail of the first api/verify.js document, from
the token select onward: used check, guarded expiry check, webhook
post, submission-logging update. -/
def verifyALookup (c : UploadCtx) (tok : String) : UResp × List Event :=
  let ev1 := [Event.parseMp,
    .dbSelect "verification_tokens" ["webhook_url", "expires_at", "used"] tok]
  match c.row with
  | none => (⟨400, "Invalid token"⟩, ev1)
  | some row =>
    let ev2 := ev1 ++ [.checkUsed]
    if row.used then (⟨400, "Token already decided"⟩, ev2)
    else
      let ev3 := ev2 ++ [.checkExpiry]
      if expiredGuarded c.now row.expires_at then (⟨400, "Token expired"⟩, ev3)
      else
        let ev4 := ev3 ++ [.webhookPost row.webhook_url]
        if ¬ is2xx c.webhook1 then (⟨502, "Discord rejected webhook"⟩, ev4)
        else
          (⟨200, "success"⟩,
            ev4 ++ [.dbUpdate "verification_tokens" (submitAssigns c.status) tok])

/-- First document of api/verify.js: upload handler using formidable
and global fetch, logging submitted or-else-null ai_status, never
touching the used flag. -/
def verifyA (c : UploadCtx) : UResp × List Event :=
  if c.method == "OPTIONS" then (⟨204, ""⟩, [])
  else if c.method != "POST" then (⟨405, "Method not allowed"⟩, [])
  else if ¬ c.envOk then (⟨500, "Server missing Supabase env vars"⟩, [])
  else if c.parseErr then (⟨400, "Bad upload payload"⟩, [.parseMp])
  else if ¬ truthy c.token then (⟨400, "Missing token"⟩, [.parseMp])
  else if ¬ c.filePresent then (⟨400, "Missing file"⟩, [.parseMp])
  else verifyALookup c (c.token.getD "")

/-- Lookup-and-forward tail of the second api/verify.js document:
webhook_url presence check, used check, guarded expiry check, webhook
post to the wait=true rewritten URL, submission-logging update. -/
def verifyBLookup (c : UploadCtx) (tok : String) : UResp × List Event :=
  let ev1 := [Event.parseMp,
    .dbSelect "verification_tokens" ["webhook_url", "expires_at", "used", "user_id"] tok]
  match c.row with
  | none => (⟨400, "Invalid token"⟩, ev1)
  | some row =>
    if ¬ truthy row.webhook_url then (⟨400, "Token missing webhook_url"⟩, ev1)
    else
      let ev2 := ev1 ++ [.checkUsed]
      if row.used then (⟨400, "Token already decided"⟩, ev2)
      else
        let ev3 := ev2 ++ [.checkExpiry]
        if expiredGuarded c.now row.expires_at then (⟨400, "Token expired"⟩, ev3)
        else
          let ev4 := ev3 ++ [.webhookPost (some (waitUrl (row.webhook_url.getD "")))]
          if ¬ is2xx c.webhook1 then (⟨502, "Discord rejected webhook"⟩, ev4)
          else
            (⟨200, "success"⟩,
              ev4 ++ [.dbUpdate "verification_tokens" (submitAssigns c.status) tok])

/-- Second document of api/verify.js: upload handler with a
parseMultipart helper (maxFileSize 4 MiB), a 413 server-side size
check, and the verifyBLookup tail.  A parse failure is caught by the
outer try-catch and answered 500. -/
def verifyB (c : UploadCtx) : UResp × List Event :=
  if c.method == "OPTIONS" then (⟨204, ""⟩, [])
  else if c.method != "POST" then (⟨405, "Method not allowed"⟩, [])
  else if ¬ c.envOk then (⟨500, "Server missing Supabase env vars"⟩, [])
  else if c.parseErr then (⟨500, "Internal server error"⟩, [.parseMp])
  else if ¬ truthy c.token then (⟨400, "Missing token"⟩, [.parseMp])
  else if ¬ c.filePresent then (⟨400, "Missing file"⟩, [.parseMp])
  else if c.fileSize != 0 && c.fileSize > 4 * 1024 * 1024 then
    (⟨413, "File too large (max 4MB)"⟩, [.parseMp])
  else verifyBLookup c (c.token.getD "")

/-- Lookup-and-forward tail of the second api/discord-interactions.js
document: same flow as the first api/verify.js document. -/
def iUploadLookup (c : UploadCtx) (tok : String) : UResp × List Event :=
  let ev1 := [Event.parseMp,
    .dbSelect "verification_tokens" ["webhook_url", "expires_at", "used"] tok]
  match c.row with
  | none => (⟨400, "Invalid token"⟩, ev1)
  | some row =>
    let ev2 := ev1 ++ [.checkUsed]
    if row.used then (⟨400, "Token already decided"⟩, ev2)
    else
      let ev3 := ev2 ++ [.checkExpiry]
      if expiredGuarded c.now row.expires_at then (⟨400, "Token expired"⟩, ev3)
      else
        let ev4 := ev3 ++ [.webhookPost row.webhook_url]
        if ¬ is2xx c.webhook1 then (⟨502, "Discord rejected webhook"⟩, ev4)
        else
          (⟨200, "success"⟩,
            ev4 ++ [.dbUpdate "verification_tokens" (submitAssigns c.status) tok])

/-- Second document of api/discord-interactions.js: upload handler like
the first api/verify.js document but with an explicit fetch-availability
check answered 500. -/
def interactionsUpload (c : UploadCtx) : UResp × List Event :=
  if c.method == "OPTIONS" then (⟨204, ""⟩, [])
  else if c.method != "POST" then (⟨405, "Method not allowed"⟩, [])
  else if ¬ c.envOk then (⟨500, "Server missing Supabase env vars"⟩, [])
  else if ¬ c.fetchOk then (⟨500, "Server missing fetch()"⟩, [])
  else if c.parseErr then (⟨400, "Bad upload payload"⟩, [.parseMp])
  else if ¬ truthy c.token then (⟨400, "Missing token"⟩, [.parseMp])
  else if ¬ c.filePresent then (⟨400, "Missing file"⟩, [.parseMp])
  else iUploadLookup c (c.token.getD "")

/-- Lookup-and-forward tail of unnamed part_001: same flow as the
first api/verify.js document, posting via native FormData and Blob. -/
def part001Lookup (c : UploadCtx) (tok : String) : UResp × List Event :=
  let ev1 := [Event.parseMp,
    .dbSelect "verification_tokens" ["webhook_url", "expires_at", "used"] tok]
  match c.row with
  | none => (⟨400, "Invalid token"⟩, ev1)
  | some row =>
    let ev2 := ev1 ++ [.checkUsed]
    if row.used then (⟨400, "Token already decided"⟩, ev2)
    else
      let ev3 := ev2 ++ [.checkExpiry]
      if expiredGuarded c.now row.expires_at then (⟨400, "Token expired"⟩, ev3)
      else
        let ev4 := ev3 ++ [.webhookPost row.webhook_url]
        if ¬ is2xx c.webhook1 then (⟨502, "Discord rejected webhook"⟩, ev4)
        else
          (⟨200, "success"⟩,
            ev4 ++ [.dbUpdate "verification_tokens" (submitAssigns c.status) tok])

/-- Unnamed part_001: upload handler using native FormData and Blob. -/
def part001 (c : UploadCtx) : UResp × List Event :=
  if c.method == "OPTIONS" then (⟨204, ""⟩, [])
  else if c.method != "POST" then (⟨405, "Method not allowed"⟩, [])
  else if ¬ c.envOk then (⟨500, "Server missing Supabase env vars"⟩, [])
  else if c.parseErr then (⟨400, "Bad upload payload"⟩, [.parseMp])
  else if ¬ truthy c.token then (⟨400, "Missing token"⟩, [.parseMp])
  else if ¬ c.filePresent then (⟨400, "Missing file"⟩, [.parseMp])
  else part001Lookup c (c.token.getD "")

/-- Lookup-and-forward tail of the first part_002 document: used check,
guarded expiry check, then the webhook_url presence check answered 500,
webhook post, submission-logging update. -/
def part002ALookup (c : UploadCtx) (tok : String) : UResp × List Event :=
  let ev1 := [Event.parseMp,
    .dbSelect "verification_tokens" ["webhook_url", "expires_at", "used"] tok]
  match c.row with
  | none => (⟨400, "Invalid token"⟩, ev1)
  | some row =>
    let ev2 := ev1 ++ [.checkUsed]
    if row.used then (⟨400, "Token already decided"⟩, ev2)
    else
      let ev3 := ev2 ++ [.checkExpiry]
      if expiredGuarded c.now row.expires_at then (⟨400, "Token expired"⟩, ev3)
      else if ¬ truthy row.webhook_url then
        (⟨500, "Token row missing webhook_url"⟩, ev3)
      else
        let ev4 := ev3 ++ [.webhookPost row.webhook_url]
        if ¬ is2xx c.webhook1 then (⟨502, "Discord rejected webhook"⟩, ev4)
        else
          (⟨200, "success"⟩,
            ev4 ++ [.dbUpdate "verification_tokens" (submitAssigns c.status) tok])

/-- First document of unnamed part_002: upload handler with an 8 MiB
parser limit and an image mime-type check before the lookup. -/
def part002A (c : UploadCtx) : UResp × List Event :=
  if c.method == "OPTIONS" then (⟨204, ""⟩, [])
  else if c.method != "POST" then (⟨405, "Method not allowed"⟩, [])
  else if ¬ c.envOk then (⟨500, "Server missing Supabase env vars"⟩, [])
  else if c.parseErr then (⟨400, "Bad upload payload"⟩, [.parseMp])
  else if ¬ truthy c.token then (⟨400, "Missing token"⟩, [.parseMp])
  else if ¬ c.filePresent then (⟨400, "Missing file"⟩, [.parseMp])
  else if ¬ strStarts "image/" (jsOrDefault c.fileMime "image/png") then
    (⟨400, "File must be an image"⟩, [.parseMp])
  else part002ALookup c (c.token.getD "")

/-- Lookup-and-forward tail of the second part_002 document: used
check (Token already used), guarded expiry check, then TWO webhook
posts (the image and the separate staff-action message) and no row
update on success. -/
def part002BLookup (c : UploadCtx) (tok : String) : UResp × List Event :=
  let ev1 := [Event.parseMp,
    .dbSelect "verification_tokens" ["webhook_url", "expires_at", "used"] tok]
  match c.row with
  | none => (⟨400, "Invalid token"⟩, ev1)
  | some row =>
    let ev2 := ev1 ++ [.checkUsed]
    if row.used then (⟨400, "Token already used"⟩, ev2)
    else
      let ev3 := ev2 ++ [.checkExpiry]
      if expiredGuarded c.now row.expires_at then (⟨400, "Token expired"⟩, ev3)
      else
        let ev4 := ev3 ++ [.webhookPost row.webhook_url]
        if ¬ is2xx c.webhook1 then (⟨502, "Discord rejected webhook"⟩, ev4)
        else
          let ev5 := ev4 ++ [.webhookPost row.webhook_url]
          if ¬ is2xx c.webhook2 then (⟨502, "Discord rejected decision message"⟩, ev5)
          else (⟨200, "success"⟩, ev5)

/-- Second document of unnamed part_002: upload handler that posts two
webhook messages and performs no row update at all on success. -/
def part002B (c : UploadCtx) : UResp × List Event :=
  if c.method == "OPTIONS" then (⟨204, ""⟩, [])
  else if c.method != "POST" then (⟨405, "Method not allowed"⟩, [])
  else if ¬ c.envOk then (⟨500, "Server missing Supabase env vars"⟩, [])
  else if c.parseErr then (⟨400, "Bad upload payload"⟩, [.parseMp])
  else if ¬ truthy c.token then (⟨400, "Missing token"⟩, [.parseMp])
  else if ¬ c.filePresent then (⟨400, "Missing file"⟩, [.parseMp])
  else part002BLookup c (c.token.getD "")

/-- Lookup-and-forward tail of unnamed part_003: used check (Token
already used), UNGUARDED expiry check (null expires_at is coerced to
the epoch), webhook post, and the update that marks used = true. -/
def part003Lookup (c : UploadCtx) (tok : String) : UResp × List Event :=
  let ev1 := [Event.parseMp,
    .dbSelect "verification_tokens" ["webhook_url", "expires_at", "used"] tok]
  match c.row with
  | none => (⟨400, "Invalid token"⟩, ev1)
  | some row =>
    let ev2 := ev1 ++ [.checkUsed]
    if row.used then (⟨400, "Token already used"⟩, ev2)
    else
      let ev3 := ev2 ++ [.checkExpiry]
      if expiredUnguarded c.now row.expires_at then (⟨400, "Token expired"⟩, ev3)
      else
        let ev4 := ev3 ++ [.webhookPost row.webhook_url]
        if ¬ is2xx c.webhook1 then (⟨502, "Discord rejected webhook"⟩, ev4)
        else
          (⟨200, "success"⟩,
            ev4 ++ [.dbUpdate "verification_tokens" [("used", .vb true)] tok])

/-- Unnamed part_003: the minimal upload variant.  The Supabase env
check happens only after the field checks, and a successful upload
marks the row used = true. -/
def part003 (c : UploadCtx) : UResp × List Event :=
  if c.method == "OPTIONS" then (⟨204, ""⟩, [])
  else if c.method != "POST" then (⟨405, "Method not allowed"⟩, [])
  else if c.parseErr then (⟨400, "Bad upload payload"⟩, [.parseMp])
  else if ¬ truthy c.token then (⟨400, "Missing token"⟩, [.parseMp])
  else if ¬ c.filePresent then (⟨400, "Missing file"⟩, [.parseMp])
  else if ¬ c.envOk then (⟨500, "Server missing Supabase env vars"⟩, [.parseMp])
  else part003Lookup c (c.token.getD "")

/-- Lookup-and-forward tail of the first part_004 document: used check
(Token already used), combined guard-and-compare expiry check, webhook
post to the template-built wait=true URL, submission-logging update. -/
def part004ALookup (c : UploadCtx) (tok : String) : UResp × List Event :=
  let ev1 := [Event.parseMp,
    .dbSelect "verification_tokens" ["webhook_url", "expires_at", "used", "user_id"] tok]
  match c.row with
  | none => (⟨400, "Invalid token"⟩, ev1)
  | some row =>
    let ev2 := ev1 ++ [.checkUsed]
    if row.used then (⟨400, "Token already used"⟩, ev2)
    else
      let ev3 := ev2 ++ [.checkExpiry]
      if expiredGuarded c.now row.expires_at then (⟨400, "Token expired"⟩, ev3)
      else
        let ev4 := ev3 ++ [.webhookPost (some (jsTemplate row.webhook_url ++ "?wait=true"))]
        if ¬ is2xx c.webhook1 then (⟨502, "Webhook post failed"⟩, ev4)
        else
          (⟨200, "success"⟩,
            ev4 ++ [.dbUpdate "verification_tokens" (submitAssigns c.status) tok])

/-- First document of unnamed part_004: upload handler posting through
a raw https request, selecting user_id as well. -/
def part004A (c : UploadCtx) : UResp × List Event :=
  if c.method == "OPTIONS" then (⟨204, ""⟩, [])
  else if c.method != "POST" then (⟨405, "Method not allowed"⟩, [])
  else if ¬ c.envOk then (⟨500, "Missing Supabase env vars"⟩, [])
  else if c.parseErr then (⟨400, "Form parse error"⟩, [.parseMp])
  else if ¬ truthy c.token then (⟨400, "Missing token"⟩, [.parseMp])
  else if ¬ c.filePresent then (⟨400, "Missing file"⟩, [.parseMp])
  else part004ALookup c (c.token.getD "")

/-- Lookup-and-forward tail of the second part_004 document: the
standard submitted-logging flow over native FormData and fetch. -/
def part004BLookup (c : UploadCtx) (tok : String) : UResp × List Event :=
  let ev1 := [Event.parseMp,
    .dbSelect "verification_tokens" ["webhook_url", "expires_at", "used"] tok]
  match c.row with
  | none => (⟨400, "Invalid token"⟩, ev1)
  | some row =>
    let ev2 := ev1 ++ [.checkUsed]
    if row.used then (⟨400, "Token already decided"⟩, ev2)
    else
      let ev3 := ev2 ++ [.checkExpiry]
      if expiredGuarded c.now row.expires_at then (⟨400, "Token expired"⟩, ev3)
      else
        let ev4 := ev3 ++ [.webhookPost row.webhook_url]
        if ¬ is2xx c.webhook1 then (⟨502, "Discord rejected webhook"⟩, ev4)
        else
          (⟨200, "success"⟩,
            ev4 ++ [.dbUpdate "verification_tokens" (submitAssigns c.status) tok])

/-- Second document of unnamed part_004: upload handler using native
FormData over fetch, with a dedicated temporary directory. -/
def part004B (c : UploadCtx) : UResp × List Event :=
  if c.method == "OPTIONS" then (⟨204, ""⟩, [])
  else if c.method != "POST" then (⟨405, "Method not allowed"⟩, [])
  else if ¬ c.envOk then (⟨500, "Server missing Supabase env vars"⟩, [])
  else if c.parseErr then (⟨400, "Bad upload payload"⟩, [.parseMp])
  else if ¬ truthy c.token then (⟨400, "Missing token"⟩, [.parseMp])
  else if ¬ c.filePresent then (⟨400, "Missing file"⟩, [.parseMp])
  else part004BLookup c (c.token.getD "")

/-- Lookup-and-forward tail of unnamed part_005: webhook_url presence
check before the used check, guarded expiry check, webhook post to the
wait=true URL, and the update that also logs doc_type. -/
def part005Lookup (c : UploadCtx) (tok : String) : UResp × List Event :=
  let ev1 := [Event.parseMp,
    .dbSelect "verification_tokens" ["webhook_url", "expires_at", "used"] tok]
  match c.row with
  | none => (⟨400, "Invalid token"⟩, ev1)
  | some row =>
    if ¬ truthy row.webhook_url then (⟨400, "Token missing webhook_url"⟩, ev1)
    else
      let ev2 := ev1 ++ [.checkUsed]
      if row.used then (⟨400, "Token already decided"⟩, ev2)
      else
        let ev3 := ev2 ++ [.checkExpiry]
        if expiredGuarded c.now row.expires_at then (⟨400, "Token expired"⟩, ev3)
        else
          let ev4 := ev3 ++ [.webhookPost (some (row.webhook_url.getD "" ++ "?wait=true"))]
          if ¬ is2xx c.webhook1 then (⟨502, "Discord webhook rejected message"⟩, ev4)
          else
            (⟨200, "success"⟩,
              ev4 ++ [.dbUpdate "verification_tokens"
                (submitAssigns c.status ++ [("doc_type", jsOrNull c.docType)]) tok])

/-- Unnamed part_005: upload handler with an additional doc_type
field. -/
def part005 (c : UploadCtx) : UResp × List Event :=
  if c.method == "OPTIONS" then (⟨204, ""⟩, [])
  else if c.method != "POST" then (⟨405, "Method not allowed"⟩, [])
  else if ¬ c.envOk then (⟨500, "Missing SUPABASE env vars"⟩, [])
  else if c.parseErr then (⟨400, "Bad upload payload"⟩, [.parseMp])
  else if ¬ truthy c.token then (⟨400, "Missing token"⟩, [.parseMp])
  else if ¬ c.filePresent then (⟨400, "Missing file"⟩, [.parseMp])
  else part005Lookup c (c.token.getD "")

/-- Lookup-and-forward tail of unnamed part_006: webhook_url presence
check before the used check, guarded expiry check, webhook post,
submission-logging update. -/
def part006Lookup (c : UploadCtx) (tok : String) : UResp × List Event :=
  let ev1 := [Event.parseMp,
    .dbSelect "verification_tokens" ["webhook_url", "expires_at", "used"] tok]
  match c.row with
  | none => (⟨400, "Invalid token"⟩, ev1)
  | some row =>
    if ¬ truthy row.webhook_url then (⟨400, "Token missing webhook_url"⟩, ev1)
    else
      let ev2 := ev1 ++ [.checkUsed]
      if row.used then (⟨400, "Token already decided"⟩, ev2)
      else
        let ev3 := ev2 ++ [.checkExpiry]
        if expiredGuarded c.now row.expires_at then (⟨400, "Token expired"⟩, ev3)
        else
          let ev4 := ev3 ++ [.webhookPost row.webhook_url]
          if ¬ is2xx c.webhook1 then (⟨502, "Discord rejected webhook"⟩, ev4)
          else
            (⟨200, "success"⟩,
              ev4 ++ [.dbUpdate "verification_tokens" (submitAssigns c.status) tok])

/-- Unnamed part_006: upload handler with the formidable v3 factory,
maxFileSize 4 MiB and a 413 size check. -/
def part006 (c : UploadCtx) : UResp × List Event :=
  if c.method == "OPTIONS" then (⟨204, ""⟩, [])
  else if c.method != "POST" then (⟨405, "Method not allowed"⟩, [])
  else if ¬ c.envOk then (⟨500, "Server missing Supabase env vars"⟩, [])
  else if c.parseErr then (⟨400, "Bad upload payload (maybe too large)"⟩, [.parseMp])
  else if ¬ truthy c.token then (⟨400, "Missing token"⟩, [.parseMp])
  else if ¬ c.filePresent then (⟨400, "Missing file"⟩, [.parseMp])
  else if c.fileSize != 0 && c.fileSize > 4 * 1024 * 1024 then
    (⟨413, "File too large (max 4MB)"⟩, [.parseMp])
  else part006Lookup c (c.token.getD "")

/-- Index of the eleven upload-handler variants in the repository. -/
inductive UVariant
  | verifyA | verifyB | iUpload | p001 | p002A | p002B | p003 | p004A | p004B | p005 | p006
deriving DecidableEq, Repr

/-- Dispatch an upload-handler variant. -/
def runUpload : UVariant → UploadCtx → UResp × List Event
  | .verifyA => verifyA
  | .verifyB => verifyB
  | .iUpload => interactionsUpload
  | .p001 => part001
  | .p002A => part002A
  | .p002B => part002B
  | .p003 => part003
  | .p004A => part004A
  | .p004B => part004B
  | .p005 => part005
  | .p006 => part006

/-- Template-literal stringification of a possibly-undefined value, as
in optional chaining on interaction.member: undefined prints as
undefined. -/
def jsTemplateU : Option String → String
  | none => "undefined"
  | some s => s

/-- Character-list core of the JavaScript single-separator split: an
empty input yields one empty segment, a separator starts a new
segment, any other character extends the current head segment. -/
def jsSplitList (sep : Char) : List Char → List (List Char)
  | [] => [[]]
  | c :: cs =>
    match jsSplitList sep cs with
    | [] => [[]]
    | r :: rs => if c == sep then [] :: r :: rs else (c :: r) :: rs

/-- JavaScript String.split with a one-character separator, as used on
custom_id with the colon. -/
def jsSplit (sep : Char) (s : String) : List String :=
  (jsSplitList sep s.data).map List.asString

/-- Indexing into the split result; a missing element reads as the
empty string (standing for undefined, which is falsy like the empty
string everywhere it is consumed). -/
def nth (xs : List String) (n : Nat) : String := (xs.drop n).headD ""

/-- Request context for the Discord interaction handlers.  pkValid
states that the configured hex public key decodes to 32 bytes (the
handlers throw otherwise); row, grant1 and grant2 are the oracle
results of the awaited supabase select and the two role-grant calls;
grant1Body and grant2Body are the response bodies of those calls. -/
structure InteractionCtx where
  method : String := "POST"
  envOk : Bool := true
  publicKey : String := ""
  pkValid : Bool := true
  sigHeader : Option String := none
  tsHeader : Option String := none
  rawBody : String := ""
  itype : Nat := 0
  customId : String := ""
  memberRoles : List String := []
  memberUserId : Option String := none
  guildId : String := ""
  staffRoleIds : List String := []
  verifiedRoleId : String := ""
  residentRoleId : String := ""
  row : Option Row := none
  grant1 : Nat := 0
  grant2 : Nat := 0
  grant1Body : String := ""
  grant2Body : String := ""
deriving Repr

/-- An interaction-handler response: a raw send (405, 500, 401), the
type 1 pong, the bare type 6 ack of part_000, an ephemeral flags 64
message (interaction response type 4), or a message edit (type 7). -/
inductive IResp
  | raw (status : Nat) (body : String)
  | pong
  | ack
  | msg (content : String)
  | edit (content : String)
deriving DecidableEq, Repr

/-- HTTP status of an interaction response; every JSON interaction
reply is sent with status 200. -/
def IResp.httpStatus : IResp → Nat
  | .raw s _ => s
  | _ => 200

/-- The role-grant endpoint path used by both interaction handlers. -/
def rolePath (guildId userId roleId : String) : String :=
  "/guilds/" ++ guildId ++ "/members/" ++ userId ++ "/roles/" ++ roleId

/-- Button-handling tail of the first api/discord-interactions.js
document, from the custom_id parse onward: staff gate, token lookup,
used check, and the approve and deny branches (the two role grants of
the approve branch go out together via Promise.all). -/
def interactionsAButtons (c : InteractionCtx) : IResp × List Event :=
  let parts := jsSplit ':' c.customId
  if ¬ (parts.length == 3 && nth parts 0 == "verify") then
    (.msg "Invalid button.", [])
  else
    let action := nth parts 1
    let token := nth parts 2
    if ¬ c.memberRoles.any (fun r => c.staffRoleIds.contains r) then
      (.msg "❌ You are not allowed to do that.", [])
    else
      let ev1 := [Event.dbSelect "verification_tokens" ["token", "user_id", "used"] token]
      match c.row with
      | none => (.msg "Token not found.", ev1)
      | some row =>
        if row.used then (.msg "Already decided.", ev1)
        else
          let userId := jsTemplate row.user_id
          if action == "approve" then
            let ev2 := ev1 ++ [.vendorPar
              (rolePath c.guildId userId c.verifiedRoleId)
              (rolePath c.guildId userId c.residentRoleId)]
            if ¬ is2xx c.grant1 then
              (.msg ("❌ Error: " ++
                ("Role add failed (verified): " ++ c.grant1Body).take 1800), ev2)
            else if ¬ is2xx c.grant2 then
              (.msg ("❌ Error: " ++
                ("Role add failed (resident): " ++ c.grant2Body).take 1800), ev2)
            else
              (.edit ("✅ **APPROVED** by <@" ++ jsTemplateU c.memberUserId ++
                  "> — roles granted to <@" ++ userId ++ ">"),
                ev2 ++ [.dbUpdate "verification_tokens"
                  [("used", .vb true), ("decision", .vs "approved"),
                   ("decided_at", .vtime), ("decided_by", jsOrNull c.memberUserId)] token])
          else if action == "deny" then
            (.edit ("❌ **DENIED** by <@" ++ jsTemplateU c.memberUserId ++
                "> — user: <@" ++ userId ++ ">"),
              ev1 ++ [.dbUpdate "verification_tokens"
                [("used", .vb true), ("decision", .vs "denied"),
                 ("decided_at", .vtime), ("decided_by", jsOrNull c.memberUserId)] token])
          else (.msg "Unknown action.", ev1)

/-- First document of api/discord-interactions.js: the interaction
handler that verifies the Ed25519 signature over timestamp plus raw
body before dispatching to the button tail.  The five individual env
checks of the source are folded into the envOk flag; ver is the
Ed25519 verification primitive (public key hex, message, signature
hex). -/
def interactionsA (ver : String → String → String → Bool) (c : InteractionCtx) :
    IResp × List Event :=
  if c.method != "POST" then (.raw 405 "Method not allowed", [])
  else if ¬ c.envOk then (.raw 500 "Missing env vars", [])
  else if c.sigHeader.isNone || c.tsHeader.isNone then
    (.raw 401 "Missing signature headers", [])
  else if ¬ c.pkValid then (.raw 500 "Internal error", [])
  else if ¬ ver c.publicKey (c.tsHeader.getD "" ++ c.rawBody) (c.sigHeader.getD "") then
    (.raw 401 "Bad signature", [])
  else if c.itype == 1 then (.pong, [])
  else if c.itype != 3 then (.msg "Unhandled interaction type.", [])
  else interactionsAButtons c

/-- Success statuses accepted by part_000 for a role add. -/
def okCodes : List Nat := [200, 201, 204]

/-- Button-handling tail of unnamed part_000, from the custom_id parse
onward: staff gate, token lookup with the falsy user_id check, used
check, and the approve branch with its two sequentially awaited role
grants accepting statuses 200, 201 and 204. -/
def part000Buttons (c : InteractionCtx) : IResp × List Event :=
  let parts := jsSplit ':' c.customId
  let ns := nth parts 0
  let action := nth parts 1
  let token := nth parts 2
  if ¬ (ns == "verify" && action != "" && token != "") then
    (.msg "Invalid button payload.", [])
  else if ¬ c.memberRoles.any (fun r => c.staffRoleIds.contains r) then
    (.msg "❌ You are not allowed to do that.", [])
  else
    let ev1 := [Event.dbSelect "verification_tokens" ["user_id", "used"] token]
    match c.row with
    | none => (.msg "Token not found.", ev1)
    | some row =>
      if ¬ truthy row.user_id then (.msg "Token not found.", ev1)
      else if row.used then (.msg "Already decided.", ev1)
      else
        let userId := row.user_id.getD ""
        if action == "approve" then
          let ev2 := ev1 ++
            [.vendorCall (rolePath c.guildId userId c.verifiedRoleId),
             .vendorCall (rolePath c.guildId userId c.residentRoleId)]
          if ¬ (okCodes.contains c.grant1 && okCodes.contains c.grant2) then
            (.msg ("Role assignment failed (codes: " ++ toString c.grant1 ++ ", " ++
              toString c.grant2 ++ "). Check bot perms/role hierarchy."), ev2)
          else
            (.edit ("✅ **APPROVED** by <@" ++ jsTemplateU c.memberUserId ++
                "> — roles granted to <@" ++ userId ++ ">"),
              ev2 ++ [.dbUpdate "verification_tokens"
                [("used", .vb true), ("decision", .vs "approved"),
                 ("decided_at", .vtime), ("decided_by", optVal c.memberUserId)] token])
        else if action == "deny" then
          (.edit ("⛔ **DENIED** by <@" ++ jsTemplateU c.memberUserId ++ ">"),
            ev1 ++ [.dbUpdate "verification_tokens"
              [("used", .vb true), ("decision", .vs "denied"),
               ("decided_at", .vtime), ("decided_by", optVal c.memberUserId)] token])
        else (.msg "Unknown action.", ev1)

/-- Unnamed part_000: the interaction handler that reads the raw body,
checks the signature headers and the Ed25519 signature over timestamp
plus raw body, and dispatches to its button tail; the env checks are
folded into envOk. -/
def part000 (ver : String → String → String → Bool) (c : InteractionCtx) :
    IResp × List Event :=
  if ¬ c.envOk then (.raw 500 "Missing env vars", [])
  else if c.sigHeader.isNone || c.tsHeader.isNone then
    (.raw 401 "Missing signature headers", [])
  else if ¬ c.pkValid then (.raw 500 "Internal error", [])
  else if ¬ ver c.publicKey (c.tsHeader.getD "" ++ c.rawBody) (c.sigHeader.getD "") then
    (.raw 401 "Bad signature", [])
  else if c.itype == 1 then (.pong, [])
  else if c.itype != 3 then (.ack, [])
  else part000Buttons c

/-- Event discriminator: is this a database update? -/
def Event.isUpdate : Event → Bool
  | .dbUpdate .. => true
  | _ => false

/-- Event discriminator: is this a webhook post? -/
def Event.isWebhook : Event → Bool
  | .webhookPost _ => true
  | _ => false

/-- Event discriminator: is this a vendor bot API call (sequential or
part of a concurrent pair)? -/
def Event.isVendor : Event → Bool
  | .vendorCall _ => true
  | .vendorPar _ _ => true
  | _ => false

/-- Event discriminator: is this a concurrent pair of vendor calls? -/
def Event.isPar : Event → Bool
  | .vendorPar _ _ => true
  | _ => false

/-- Event discriminator: is this a database select? -/
def Event.isSelect : Event → Bool
  | .dbSelect .. => true
  | _ => false

/-- Response discriminator: an ephemeral type 4 message. -/
def IResp.isMsg : IResp → Bool
  | .msg _ => true
  | _ => false

/-- The shape of an event, forgetting its arguments: used to state that
the upload variants share one skeleton of steps. -/
inductive Shape
  | parse | sel | cu | ce | post | upd | vend | par
deriving DecidableEq, Repr

/-- Forget the arguments of an event. -/
def Event.shape : Event → Shape
  | .parseMp => .parse
  | .dbSelect .. => .sel
  | .checkUsed => .cu
  | .checkExpiry => .ce
  | .webhookPost _ => .post
  | .vendorCall _ => .vend
  | .vendorPar _ _ => .par
  | .dbUpdate .. => .upd

/-- The columns of the verification_tokens table an event touches: the
token column keys every select and update via eq, a select touches its
selected columns and an update its assigned columns. -/
def colsOfEvent : Event → List String
  | .dbSelect _ cols _ => "token" :: cols
  | .dbUpdate _ assigns _ => "token" :: assigns.map Prod.fst
  | _ => []

/-- The six-column set named by the spec. -/
def specCols : List String :=
  ["token", "webhook_url", "expires_at", "used", "decision", "submitted"]

/-- The full column set the handlers actually touch. -/
def fullCols : List String :=
  ["token", "webhook_url", "expires_at", "used", "decision", "submitted",
   "user_id", "submitted_at", "ai_status", "decided_at", "decided_by", "doc_type"]

/-- Does some update event in the trace assign the given column? -/
def updatesCol (es : List Event) (col : String) : Bool :=
  es.any fun e => match e with
    | .dbUpdate _ assigns _ => assigns.any fun p => p.1 == col
    | _ => false

/-- Does some update event in the trace set the given column to true? -/
def setsTrue (es : List Event) (col : String) : Bool :=
  es.any fun e => match e with
    | .dbUpdate _ assigns _ => assigns.any fun p => p.1 == col && p.2 == Val.vb true
    | _ => false

/-- The authentication predicate of the interaction handlers: both
signature headers are present and the Ed25519 signature verifies over
the timestamp header concatenated with the raw request body. -/
def authOkB (ver : String → String → String → Bool) (c : InteractionCtx) : Bool :=
  c.sigHeader.isSome && c.tsHeader.isSome &&
    ver c.publicKey (c.tsHeader.getD "" ++ c.rawBody) (c.sigHeader.getD "")

/-- The two error strings the upload variants use for an already
decided token. -/
def decidedErr (s : String) : Bool :=
  s == "Token already decided" || s == "Token already used"

/-- A trivially accepting verification primitive, for concrete runs. -/
def verTrue : String → String → String → Bool := fun _ _ _ => true

/-- A trivially rejecting verification primitive, for concrete runs. -/
def verFalse : String → String → String → Bool := fun _ _ _ => false

/-- A concrete well-formed upload request whose token row is live:
unused, unexpired, with a webhook URL, and all oracles succeeding. -/
def ctxSubmitOk : UploadCtx :=
  { method := "POST", envOk := true, fetchOk := true, parseErr := false,
    token := some "tok1", status := some "PASS", docType := some "ID",
    filePresent := true, fileSize := 1000, fileMime := some "image/png",
    row := some { user_id := some "u1", webhook_url := some "https://h/w",
                  expires_at := some (some 2000000000000), used := false },
    webhook1 := 200, webhook2 := 200, now := 1700000000000 }

/-- The same request against a row whose expires_at is SQL null. -/
def ctxNullExpiry : UploadCtx :=
  { ctxSubmitOk with
    row := some { user_id := some "u1", webhook_url := some "https://h/w",
                  expires_at := none, used := false } }

/-- The same request against a row already decided (used = true). -/
def ctxUsedRow : UploadCtx :=
  { ctxSubmitOk with
    row := some { user_id := some "u1", webhook_url := some "https://h/w",
                  expires_at := some (some 2000000000000), used := true } }

/-- The same request against a row whose expiry lies in the past. -/
def ctxExpired : UploadCtx :=
  { ctxSubmitOk with
    row := some { user_id := some "u1", webhook_url := some "https://h/w",
                  expires_at := some (some 1000), used := false } }

/-- The same request carrying a file above the 4 MiB limit. -/
def ctxBigFile : UploadCtx :=
  { ctxSubmitOk with fileSize := 4 * 1024 * 1024 + 1 }

/-- A concrete authenticated staff approve click on a live token. -/
def ctxApprove : InteractionCtx :=
  { method := "POST", envOk := true, publicKey := "pk", pkValid := true,
    sigHeader := some "sig", tsHeader := some "ts", rawBody := "body",
    itype := 3, customId := "verify:approve:tok1",
    memberRoles := ["staff1"], memberUserId := some "staff9",
    guildId := "g1", staffRoleIds := ["staff1"],
    verifiedRoleId := "vr", residentRoleId := "rr",
    row := some { user_id := some "u1", webhook_url := none,
                  expires_at := none, used := false },
    grant1 := 204, grant2 := 204 }

/-- The same click by a member holding no staff role. -/
def ctxNotStaff : InteractionCtx :=
  { ctxApprove with memberRoles := ["pleb"] }

/-- The same click on a row that is already decided. -/
def ctxUsedClick : InteractionCtx :=
  { ctxApprove with
    row := some { user_id := some "u1", webhook_url := none,
                  expires_at := none, used := true } }

/-- C10: the upload handler in the second api/verify.js document and
the part_006 variant enforce a 4 MiB limit: their multipart parsers are
configured with maxFileSize 4 * 1024 * 1024, and a file whose reported
size exceeds the limit is rejected with HTTP 413 File too large
(max 4MB) while the trace holds only the parse step, so no database
lookup and no webhook call has happened. -/
theorem C10_upload_size_limit (c : UploadCtx)
    (hm : c.method = "POST") (he : c.envOk = true) (hp : c.parseErr = false)
    (ht : truthy c.token = true) (hf : c.filePresent = true)
    (hs : c.fileSize > 4 * 1024 * 1024) :
    verifyB_maxFileSize = 4 * 1024 * 1024 ∧ part006_maxFileSize = 4 * 1024 * 1024 ∧
    (verifyB c).1 = ⟨413, "File too large (max 4MB)"⟩ ∧ (verifyB c).2 = [.parseMp] ∧
    (part006 c).1 = ⟨413, "File too large (max 4MB)"⟩ ∧ (part006 c).2 = [.parseMp] := by
  have h0 : c.fileSize ≠ 0 := by omega
  refine ⟨rfl, rfl, ?_⟩
  simp [verifyB, part006, hm, he, hp, ht, hf, hs, h0]

/-- Witness for C10 at a concrete oversized upload. -/
theorem C10_upload_size_limit_witness :
    (verifyB ctxBigFile).1 = ⟨413, "File too large (max 4MB)"⟩ ∧
    (verifyB ctxBigFile).2 = [.parseMp] ∧
    (part006 ctxBigFile).1 = ⟨413, "File too large (max 4MB)"⟩ ∧
    (part006 ctxBigFile).2 = [.parseMp] := by
  have h := C10_upload_size_limit ctxBigFile rfl rfl rfl (by decide) rfl (by decide)
  exact ⟨h.2.2.1, h.2.2.2.1, h.2.2.2.2.1, h.2.2.2.2.2⟩

/-- The button tail of the first interaction handler always answers an
interaction JSON reply, hence HTTP 200. -/
theorem interactionsAButtons_status (c : InteractionCtx) :
    (interactionsAButtons c).1.httpStatus = 200 := by
  simp only [interactionsAButtons]
  repeat' split
  all_goals simp [IResp.httpStatus]

/-- The button tail of part_000 always answers an interaction JSON
reply, hence HTTP 200. -/
theorem part000Buttons_status (c : InteractionCtx) :
    (part000Buttons c).1.httpStatus = 200 := by
  simp only [part000Buttons]
  repeat' split
  all_goals simp [IResp.httpStatus]

/-- C2: with the environment configured and a POST request, both
interaction handlers answer 401 exactly when the signature headers are
missing or the Ed25519 signature fails to verify over the timestamp
header concatenated with the raw body under the configured key; every
401 is issued with an empty event trace, so before any database or
vendor-API access. -/
theorem C2_signature_verification (ver : String → String → String → Bool)
    (c : InteractionCtx) (hm : c.method = "POST") (he : c.envOk = true)
    (hk : c.pkValid = true) :
    ((interactionsA ver c).1.httpStatus = 401 ↔ authOkB ver c = false) ∧
    ((part000 ver c).1.httpStatus = 401 ↔ authOkB ver c = false) ∧
    (c.sigHeader = none ∨ c.tsHeader = none →
      (interactionsA ver c) = (.raw 401 "Missing signature headers", []) ∧
      (part000 ver c) = (.raw 401 "Missing signature headers", [])) ∧
    (∀ s t, c.sigHeader = some s → c.tsHeader = some t →
      ver c.publicKey (t ++ c.rawBody) s = false →
      (interactionsA ver c) = (.raw 401 "Bad signature", []) ∧
      (part000 ver c) = (.raw 401 "Bad signature", [])) := by
  have hnot401 : authOkB ver c = true →
      (interactionsA ver c).1.httpStatus ≠ 401 ∧ (part000 ver c).1.httpStatus ≠ 401 := by
    intro ha
    simp only [authOkB, Bool.and_eq_true, Option.isSome_iff_exists] at ha
    obtain ⟨⟨⟨s, hs⟩, ⟨t, ht⟩⟩, hv⟩ := ha
    rw [hs, ht] at hv
    simp only [Option.getD_some] at hv
    constructor
    · simp only [interactionsA, hm, he, hk, hs, ht, hv, Option.getD_some]
      repeat' split
      all_goals try (rw [interactionsAButtons_status]; decide)
      all_goals simp_all [IResp.httpStatus]
    · simp only [part000, hm, he, hk, hs, ht, hv, Option.getD_some]
      repeat' split
      all_goals try (rw [part000Buttons_status]; decide)
      all_goals simp_all [IResp.httpStatus]
  have hmiss : c.sigHeader = none ∨ c.tsHeader = none →
      (interactionsA ver c) = (.raw 401 "Missing signature headers", []) ∧
      (part000 ver c) = (.raw 401 "Missing signature headers", []) := by
    rintro (h | h) <;> simp [interactionsA, part000, hm, he, hk, h]
  have hbad : ∀ s t, c.sigHeader = some s → c.tsHeader = some t →
      ver c.publicKey (t ++ c.rawBody) s = false →
      (interactionsA ver c) = (.raw 401 "Bad signature", []) ∧
      (part000 ver c) = (.raw 401 "Bad signature", []) := by
    intro s t hs ht hv
    simp [interactionsA, part000, hm, he, hk, hs, ht, hv]
  have h401of : authOkB ver c = false →
      (interactionsA ver c).1.httpStatus = 401 ∧ (part000 ver c).1.httpStatus = 401 := by
    intro ha
    rcases hsig : c.sigHeader with _ | s
    · rw [(hmiss (Or.inl hsig)).1, (hmiss (Or.inl hsig)).2]
      exact ⟨rfl, rfl⟩
    · rcases hts : c.tsHeader with _ | t
      · rw [(hmiss (Or.inr hts)).1, (hmiss (Or.inr hts)).2]
        exact ⟨rfl, rfl⟩
      · have hv : ver c.publicKey (t ++ c.rawBody) s = false := by
          simp only [authOkB, hsig, hts, Option.isSome_some, Bool.true_and,
            Option.getD_some, Bool.and_eq_false_iff] at ha
          simpa using ha
        rw [(hbad s t hsig hts hv).1, (hbad s t hsig hts hv).2]
        exact ⟨rfl, rfl⟩
  refine ⟨⟨?_, fun ha => (h401of ha).1⟩, ⟨?_, fun ha => (h401of ha).2⟩, hmiss, hbad⟩
  · intro h401
    by_contra hok
    rw [Bool.not_eq_false] at hok
    exact (hnot401 hok).1 h401
  · intro h401
    by_contra hok
    rw [Bool.not_eq_false] at hok
    exact (hnot401 hok).2 h401

/-- Witness for C2: a concrete rejecting verifier yields 401 Bad
signature with no events, and a concrete accepting verifier is not
answered 401. -/
theorem C2_signature_verification_witness :
    (interactionsA verFalse ctxApprove) = (.raw 401 "Bad signature", []) ∧
    (part000 verFalse ctxApprove) = (.raw 401 "Bad signature", []) ∧
    (interactionsA verTrue ctxApprove).1.httpStatus ≠ 401 := by
  refine ⟨?_, ?_, ?_⟩
  · exact ((C2_signature_verification verFalse ctxApprove rfl rfl rfl).2.2.2
      "sig" "ts" rfl rfl rfl).1
  · exact ((C2_signature_verification verFalse ctxApprove rfl rfl rfl).2.2.2
      "sig" "ts" rfl rfl rfl).2
  · intro h
    have := (C2_signature_verification verTrue ctxApprove rfl rfl rfl).1.mp h
    simp [authOkB, verTrue, ctxApprove] at this

/-- C8: an authenticated button click on a well-formed verify custom_id
by a member sharing no role with the configured staff role IDs is
answered only with the ephemeral not-allowed message, with an empty
event trace: no database read or write and no Discord API call, in
both interaction handlers. -/
theorem C8_staff_gate (ver : String → String → String → Bool) (c : InteractionCtx)
    (hm : c.method = "POST") (he : c.envOk = true) (hk : c.pkValid = true)
    (ha : authOkB ver c = true) (hit : c.itype = 3)
    (hp3 : (jsSplit ':' c.customId).length = 3)
    (hp0 : nth (jsSplit ':' c.customId) 0 = "verify")
    (hp1 : nth (jsSplit ':' c.customId) 1 ≠ "")
    (hp2 : nth (jsSplit ':' c.customId) 2 ≠ "")
    (hstaff : (c.memberRoles.any fun r => c.staffRoleIds.contains r) = false) :
    interactionsA ver c = (.msg "❌ You are not allowed to do that.", []) ∧
    part000 ver c = (.msg "❌ You are not allowed to do that.", []) := by
  simp only [authOkB, Bool.and_eq_true, Option.isSome_iff_exists] at ha
  obtain ⟨⟨⟨s, hs⟩, ⟨t, ht⟩⟩, hv⟩ := ha
  rw [hs, ht] at hv
  simp only [Option.getD_some] at hv
  constructor
  · simp only [interactionsA, hm, he, hk, hs, ht, hv, Option.getD_some, hit]
    simp only [interactionsAButtons, hp3, hp0, hstaff]
    simp [hp1, hp2]
  · simp only [part000, hm, he, hk, hs, ht, hv, Option.getD_some, hit]
    simp only [part000Buttons, hp0, hstaff]
    simp [hp1, hp2]

/-- Witness for C8 at a concrete non-staff click. -/
theorem C8_staff_gate_witness :
    interactionsA verTrue ctxNotStaff = (.msg "❌ You are not allowed to do that.", []) ∧
    part000 verTrue ctxNotStaff = (.msg "❌ You are not allowed to do that.", []) :=
  C8_staff_gate verTrue ctxNotStaff rfl rfl rfl (by decide) rfl (by decide)
    (by decide) (by decide) (by decide) (by decide)

/-- A status accepted by part_000 for a role add is a 2xx status. -/
theorem okCodes_sub2xx (n : Nat) (h : okCodes.contains n = true) : is2xx n = true := by
  have hm : n = 200 ∨ n = 201 ∨ n = 204 := by
    have hmem : n ∈ okCodes := by simpa using h
    simpa [okCodes] using hmem
  rcases hm with rfl | rfl | rfl <;> decide

/-- A status that is not 2xx is not accepted by part_000 either. -/
theorem not2xx_notOk (n : Nat) (h : is2xx n = false) : okCodes.contains n = false := by
  cases hq : okCodes.contains n
  · rfl
  · exact absurd (okCodes_sub2xx n hq) (by simp [h])

/-- C3: a row with used = true is frozen.  A well-formed upload request
whose row is already used is rejected 400 with one of the two
already-decided error strings and its trace holds no webhook post and
no update; an authenticated staff click on such a row is answered with
the ephemeral Already decided message, with no vendor call and no
update, in both interaction handlers. -/
theorem C3_used_rows_frozen
    (v : UVariant) (c : UploadCtx) (row : Row)
    (hm : c.method = "POST") (he : c.envOk = true) (hf : c.fetchOk = true)
    (hp : c.parseErr = false) (ht : truthy c.token = true) (hfp : c.filePresent = true)
    (hsz : ¬ c.fileSize > 4 * 1024 * 1024)
    (hmime : strStarts "image/" (jsOrDefault c.fileMime "image/png") = true)
    (hr : c.row = some row) (hu : row.used = true) (hw : truthy row.webhook_url = true)
    (ver : String → String → String → Bool) (ic : InteractionCtx) (irow : Row)
    (him : ic.method = "POST") (hie : ic.envOk = true) (hik : ic.pkValid = true)
    (hia : authOkB ver ic = true) (hit : ic.itype = 3)
    (hp3 : (jsSplit ':' ic.customId).length = 3)
    (hp0 : nth (jsSplit ':' ic.customId) 0 = "verify")
    (hp1 : nth (jsSplit ':' ic.customId) 1 ≠ "")
    (hp2 : nth (jsSplit ':' ic.customId) 2 ≠ "")
    (hstaff : (ic.memberRoles.any fun r => ic.staffRoleIds.contains r) = true)
    (hir : ic.row = some irow) (hiu : irow.used = true)
    (hid : truthy irow.user_id = true) :
    (runUpload v c).1.status = 400 ∧ decidedErr (runUpload v c).1.tag = true ∧
    (runUpload v c).2.any Event.isWebhook = false ∧
    (runUpload v c).2.any Event.isUpdate = false ∧
    (interactionsA ver ic).1 = .msg "Already decided." ∧
    (interactionsA ver ic).2.any Event.isVendor = false ∧
    (interactionsA ver ic).2.any Event.isUpdate = false ∧
    (part000 ver ic).1 = .msg "Already decided." ∧
    (part000 ver ic).2.any Event.isVendor = false ∧
    (part000 ver ic).2.any Event.isUpdate = false := by
  have hup : (runUpload v c).1.status = 400 ∧ decidedErr (runUpload v c).1.tag = true ∧
      (runUpload v c).2.any Event.isWebhook = false ∧
      (runUpload v c).2.any Event.isUpdate = false := by
    cases v <;>
      simp [runUpload, verifyA, verifyB, interactionsUpload, part001, part002A,
        part002B, part003, part004A, part004B, part005, part006,
        verifyALookup, verifyBLookup, iUploadLookup, part001Lookup, part002ALookup,
        part002BLookup, part003Lookup, part004ALookup, part004BLookup, part005Lookup,
        part006Lookup, hm, he, hf, hp, ht, hfp, hsz, hmime, hr, hu, hw,
        decidedErr, Event.isWebhook, Event.isUpdate]
  simp only [authOkB, Bool.and_eq_true, Option.isSome_iff_exists] at hia
  obtain ⟨⟨⟨s, hs⟩, ⟨t, hts⟩⟩, hv⟩ := hia
  rw [hs, hts] at hv
  simp only [Option.getD_some] at hv
  have hiA : (interactionsA ver ic).1 = .msg "Already decided." ∧
      (interactionsA ver ic).2.any Event.isVendor = false ∧
      (interactionsA ver ic).2.any Event.isUpdate = false := by
    simp only [interactionsA, him, hie, hik, hs, hts, hv, Option.getD_some, hit]
    simp only [interactionsAButtons, hp3, hp0, hstaff, hir, hiu]
    simp [hp1, hp2, Event.isVendor, Event.isUpdate]
  have hiP : (part000 ver ic).1 = .msg "Already decided." ∧
      (part000 ver ic).2.any Event.isVendor = false ∧
      (part000 ver ic).2.any Event.isUpdate = false := by
    simp only [part000, him, hie, hik, hs, hts, hv, Option.getD_some, hit]
    simp only [part000Buttons, hp0, hstaff, hir, hiu, hid]
    simp [hp1, hp2, Event.isVendor, Event.isUpdate]
  exact ⟨hup.1, hup.2.1, hup.2.2.1, hup.2.2.2, hiA.1, hiA.2.1, hiA.2.2,
    hiP.1, hiP.2.1, hiP.2.2⟩

/-- Witness for C3 at a concrete used row, upload variant verifyA and a
concrete staff click. -/
theorem C3_used_rows_frozen_witness :
    (runUpload .verifyA ctxUsedRow).1.status = 400 ∧
    decidedErr (runUpload .verifyA ctxUsedRow).1.tag = true ∧
    (runUpload .verifyA ctxUsedRow).2.any Event.isWebhook = false ∧
    (runUpload .verifyA ctxUsedRow).2.any Event.isUpdate = false ∧
    (interactionsA verTrue ctxUsedClick).1 = .msg "Already decided." ∧
    (interactionsA verTrue ctxUsedClick).2.any Event.isVendor = false ∧
    (interactionsA verTrue ctxUsedClick).2.any Event.isUpdate = false ∧
    (part000 verTrue ctxUsedClick).1 = .msg "Already decided." ∧
    (part000 verTrue ctxUsedClick).2.any Event.isVendor = false ∧
    (part000 verTrue ctxUsedClick).2.any Event.isUpdate = false :=
  C3_used_rows_frozen .verifyA ctxUsedRow
    { user_id := some "u1", webhook_url := some "https://h/w",
      expires_at := some (some 2000000000000), used := true }
    rfl rfl rfl rfl (by decide) rfl (by decide) (by decide) rfl rfl (by decide)
    verTrue ctxUsedClick
    { user_id := some "u1", webhook_url := none, expires_at := none, used := true }
    rfl rfl rfl (by decide) rfl (by decide) (by decide) (by decide) (by decide)
    (by decide) rfl rfl (by decide)

/-- C9: on an authenticated staff approve click on a live token row,
both interaction handlers record the decision only when both role
grants succeeded: the trace holds an update only if both grant calls
returned a 2xx status, and when either grant did not return 2xx the
handler answers an ephemeral error message and performs no update, so
the row is unchanged and can still be decided later. -/
theorem C9_roles_before_decision
    (ver : String → String → String → Bool) (c : InteractionCtx) (row : Row)
    (hm : c.method = "POST") (he : c.envOk = true) (hk : c.pkValid = true)
    (ha : authOkB ver c = true) (hit : c.itype = 3)
    (hp3 : (jsSplit ':' c.customId).length = 3)
    (hp0 : nth (jsSplit ':' c.customId) 0 = "verify")
    (hp1 : nth (jsSplit ':' c.customId) 1 = "approve")
    (hp2 : nth (jsSplit ':' c.customId) 2 ≠ "")
    (hstaff : (c.memberRoles.any fun r => c.staffRoleIds.contains r) = true)
    (hr : c.row = some row) (hu : row.used = false)
    (hid : truthy row.user_id = true) :
    ((interactionsA ver c).2.any Event.isUpdate = true →
      is2xx c.grant1 = true ∧ is2xx c.grant2 = true) ∧
    (¬ (is2xx c.grant1 = true ∧ is2xx c.grant2 = true) →
      (interactionsA ver c).1.isMsg = true ∧
      (interactionsA ver c).2.any Event.isUpdate = false) ∧
    ((part000 ver c).2.any Event.isUpdate = true →
      is2xx c.grant1 = true ∧ is2xx c.grant2 = true) ∧
    (¬ (is2xx c.grant1 = true ∧ is2xx c.grant2 = true) →
      (part000 ver c).1.isMsg = true ∧
      (part000 ver c).2.any Event.isUpdate = false) := by
  simp only [authOkB, Bool.and_eq_true, Option.isSome_iff_exists] at ha
  obtain ⟨⟨⟨s, hs⟩, ⟨t, hts⟩⟩, hv⟩ := ha
  rw [hs, hts] at hv
  simp only [Option.getD_some] at hv
  have hready :
      (interactionsA ver c) = interactionsAButtons c ∧
      (part000 ver c) = part000Buttons c := by
    constructor
    · simp [interactionsA, hm, he, hk, hs, hts, hv, hit]
    · simp [part000, hm, he, hk, hs, hts, hv, hit]
  rw [hready.1, hready.2]
  cases hg1 : is2xx c.grant1 <;> cases hg2 : is2xx c.grant2
  · have hcc : (okCodes.contains c.grant1 && okCodes.contains c.grant2) = false := by
      rw [not2xx_notOk c.grant1 hg1, Bool.false_and]
    refine ⟨?_, fun _ => ⟨?_, ?_⟩, ?_, fun _ => ⟨?_, ?_⟩⟩
    · intro hup
      exfalso
      revert hup
      simp only [interactionsAButtons, hp3, hp0, hp1, hstaff, hr, hu, hg1]
      simp [hp2, Event.isUpdate]
    · simp only [interactionsAButtons, hp3, hp0, hp1, hstaff, hr, hu, hg1]
      simp [hp2, IResp.isMsg]
    · simp only [interactionsAButtons, hp3, hp0, hp1, hstaff, hr, hu, hg1]
      simp [hp2, Event.isUpdate]
    · intro hup
      exfalso
      revert hup
      simp only [part000Buttons, hp0, hp1, hstaff, hr, hu, hid, hcc]
      simp [hp2, Event.isUpdate]
    · simp only [part000Buttons, hp0, hp1, hstaff, hr, hu, hid, hcc]
      simp [hp2, IResp.isMsg]
    · simp only [part000Buttons, hp0, hp1, hstaff, hr, hu, hid, hcc]
      simp [hp2, Event.isUpdate]
  · have hcc : (okCodes.contains c.grant1 && okCodes.contains c.grant2) = false := by
      rw [not2xx_notOk c.grant1 hg1, Bool.false_and]
    refine ⟨?_, fun _ => ⟨?_, ?_⟩, ?_, fun _ => ⟨?_, ?_⟩⟩
    · intro hup
      exfalso
      revert hup
      simp only [interactionsAButtons, hp3, hp0, hp1, hstaff, hr, hu, hg1]
      simp [hp2, Event.isUpdate]
    · simp only [interactionsAButtons, hp3, hp0, hp1, hstaff, hr, hu, hg1]
      simp [hp2, IResp.isMsg]
    · simp only [interactionsAButtons, hp3, hp0, hp1, hstaff, hr, hu, hg1]
      simp [hp2, Event.isUpdate]
    · intro hup
      exfalso
      revert hup
      simp only [part000Buttons, hp0, hp1, hstaff, hr, hu, hid, hcc]
      simp [hp2, Event.isUpdate]
    · simp only [part000Buttons, hp0, hp1, hstaff, hr, hu, hid, hcc]
      simp [hp2, IResp.isMsg]
    · simp only [part000Buttons, hp0, hp1, hstaff, hr, hu, hid, hcc]
      simp [hp2, Event.isUpdate]
  · have hcc : (okCodes.contains c.grant1 && okCodes.contains c.grant2) = false := by
      rw [not2xx_notOk c.grant2 hg2, Bool.and_false]
    refine ⟨?_, fun _ => ⟨?_, ?_⟩, ?_, fun _ => ⟨?_, ?_⟩⟩
    · intro hup
      exfalso
      revert hup
      simp only [interactionsAButtons, hp3, hp0, hp1, hstaff, hr, hu, hg1, hg2]
      simp [hp2, Event.isUpdate]
    · simp only [interactionsAButtons, hp3, hp0, hp1, hstaff, hr, hu, hg1, hg2]
      simp [hp2, IResp.isMsg]
    · simp only [interactionsAButtons, hp3, hp0, hp1, hstaff, hr, hu, hg1, hg2]
      simp [hp2, Event.isUpdate]
    · intro hup
      exfalso
      revert hup
      simp only [part000Buttons, hp0, hp1, hstaff, hr, hu, hid, hcc]
      simp [hp2, Event.isUpdate]
    · simp only [part000Buttons, hp0, hp1, hstaff, hr, hu, hid, hcc]
      simp [hp2, IResp.isMsg]
    · simp only [part000Buttons, hp0, hp1, hstaff, hr, hu, hid, hcc]
      simp [hp2, Event.isUpdate]
  · exact ⟨fun _ => ⟨rfl, rfl⟩, fun hno => absurd ⟨rfl, rfl⟩ hno,
      fun _ => ⟨rfl, rfl⟩, fun hno => absurd ⟨rfl, rfl⟩ hno⟩

/-- Witness for C9 at a concrete approve click whose grants succeed. -/
theorem C9_roles_before_decision_witness :
    ((interactionsA verTrue ctxApprove).2.any Event.isUpdate = true →
      is2xx ctxApprove.grant1 = true ∧ is2xx ctxApprove.grant2 = true) ∧
    is2xx ctxApprove.grant1 = true ∧ is2xx ctxApprove.grant2 = true := by
  have h := C9_roles_before_decision verTrue ctxApprove
    { user_id := some "u1", webhook_url := none, expires_at := none, used := false }
    rfl rfl rfl (by decide) rfl (by decide) (by decide) (by decide) (by decide)
    (by decide) rfl rfl (by decide)
  exact ⟨h.1, by decide, by decide⟩

/-- C1 counterexample: the part_003 upload variant, on a successful
well-formed submission, records used = true on the row and does not set
any submitted flag, contradicting the claim that every upload handler
sets submitted without touching used. -/
theorem C1_counterexample :
    (part003 ctxSubmitOk).1 = ⟨200, "success"⟩ ∧
    setsTrue (part003 ctxSubmitOk).2 "used" = true ∧
    updatesCol (part003 ctxSubmitOk).2 "submitted" = false ∧
    updatesCol (part003 ctxSubmitOk).2 "decision" = false := by decide

/-- C4 counterexample: the second part_002 upload variant answers a
successful request without any row update, contradicting the claim
that every variant ends its five steps with an update. -/
theorem C4_counterexample :
    (part002B ctxSubmitOk).1 = ⟨200, "success"⟩ ∧
    (part002B ctxSubmitOk).2.any Event.isUpdate = false ∧
    (part002B ctxSubmitOk).2.map Event.shape =
      [.parse, .sel, .cu, .ce, .post, .post] := by decide

/-- C5 counterexample: the part_003 variant rejects a well-formed
upload on a row whose expires_at is SQL null as Token expired (null is
coerced to the epoch and the current time exceeds it), contradicting
the claim that rows with absent expires_at are never rejected as
expired. -/
theorem C5_counterexample :
    ctxNullExpiry.row.map Row.expires_at = some none ∧
    (ctxNullExpiry.row.map Row.used) = some false ∧
    (part003 ctxNullExpiry).1 = ⟨400, "Token expired"⟩ ∧
    (part003 ctxNullExpiry).2.any Event.isWebhook = false ∧
    (part003 ctxNullExpiry).2.any Event.isUpdate = false := by decide

/-- C6 counterexample: the handlers read and write columns outside the
six-column set named by the spec: part_005 updates doc_type and the
first interaction handler updates decided_by, neither of which is in
that set. -/
theorem C6_counterexample :
    updatesCol (part005 ctxSubmitOk).2 "doc_type" = true ∧
    specCols.contains "doc_type" = false ∧
    updatesCol (interactionsA verTrue ctxApprove).2 "decided_by" = true ∧
    specCols.contains "decided_by" = false ∧
    updatesCol (verifyA ctxSubmitOk).2 "submitted_at" = true ∧
    specCols.contains "submitted_at" = false := by decide

/-- C7 counterexample: the approve path of the first interaction
handler issues its two role-grant requests concurrently through
Promise.all, so the trace holds a concurrent vendor pair,
contradicting the claim that no handler ever has two vendor requests
outstanding at once. -/
theorem C7_counterexample :
    (interactionsA verTrue ctxApprove).2.any Event.isPar = true := by decide

set_option maxHeartbeats 2000000 in
/-- C6 amended: every column of the verification_tokens row that any
handler reads or writes belongs to the twelve-column set consisting of
the six named by the spec together with user_id, submitted_at,
ai_status, decided_at, decided_by and doc_type: every event of every
trace of every handler touches only columns of that set. -/
theorem C6_columns_amended (v : UVariant) (c : UploadCtx)
    (ver : String → String → String → Bool) (ic : InteractionCtx) :
    ((runUpload v c).2.all fun e =>
      (colsOfEvent e).all fun x => fullCols.contains x) = true ∧
    ((interactionsA ver ic).2.all fun e =>
      (colsOfEvent e).all fun x => fullCols.contains x) = true ∧
    ((part000 ver ic).2.all fun e =>
      (colsOfEvent e).all fun x => fullCols.contains x) = true := by
  refine ⟨?_, ?_, ?_⟩
  · cases v <;>
      · simp only [runUpload, verifyA, verifyB, interactionsUpload, part001,
          part002A, part002B, part003, part004A, part004B, part005, part006]
        repeat' split
        all_goals try simp only [verifyALookup, verifyBLookup, iUploadLookup,
          part001Lookup, part002ALookup, part002BLookup, part003Lookup,
          part004ALookup, part004BLookup, part005Lookup, part006Lookup]
        all_goals (repeat' split)
        all_goals simp [colsOfEvent, submitAssigns, fullCols]
  · simp only [interactionsA]
    repeat' split
    all_goals try simp only [interactionsAButtons]
    all_goals (repeat' split)
    all_goals simp [colsOfEvent, fullCols]
  · simp only [part000]
    repeat' split
    all_goals try simp only [part000Buttons]
    all_goals (repeat' split)
    all_goals simp [colsOfEvent, fullCols]

set_option maxHeartbeats 2000000 in
/-- C7 amended: within a single request every handler awaits its
external calls sequentially, with one exception: the approve path of
the first api/discord-interactions.js document issues its two
role-grant requests concurrently via Promise.all.  Upload handlers
make no vendor bot-API call at all, part_000 never has a concurrent
vendor pair, and a concurrent pair appears in a trace of the first
interaction handler only when the clicked action is approve. -/
theorem C7_sequential_awaits_amended (v : UVariant) (c : UploadCtx)
    (ver : String → String → String → Bool) (ic : InteractionCtx) :
    ((runUpload v c).2.any Event.isVendor = false) ∧
    ((part000 ver ic).2.any Event.isPar = false) ∧
    (∀ p1 p2, Event.vendorPar p1 p2 ∈ (interactionsA ver ic).2 →
      nth (jsSplit ':' ic.customId) 1 = "approve") := by
  refine ⟨?_, ?_, ?_⟩
  · cases v <;>
      · simp only [runUpload, verifyA, verifyB, interactionsUpload, part001,
          part002A, part002B, part003, part004A, part004B, part005, part006]
        repeat' split
        all_goals try simp only [verifyALookup, verifyBLookup, iUploadLookup,
          part001Lookup, part002ALookup, part002BLookup, part003Lookup,
          part004ALookup, part004BLookup, part005Lookup, part006Lookup]
        all_goals (repeat' split)
        all_goals simp [Event.isVendor]
  · simp only [part000]
    repeat' split
    all_goals try simp only [part000Buttons]
    all_goals (repeat' split)
    all_goals simp [Event.isPar]
  · intro p1 p2 hmem
    simp only [interactionsA] at hmem
    repeat' split at hmem
    all_goals try simp only [interactionsAButtons] at hmem
    all_goals (repeat' split at hmem)
    all_goals simp_all

/-- Witness for C7: on a concrete approve click the pair of role-grant
paths is in the trace and the theorem yields the approve action, and
concrete runs of an upload handler and of part_000 show no vendor
events. -/
theorem C7_sequential_awaits_witness :
    (runUpload .verifyA ctxSubmitOk).2.any Event.isVendor = false ∧
    (part000 verTrue ctxApprove).2.any Event.isPar = false ∧
    nth (jsSplit ':' ctxApprove.customId) 1 = "approve" := by
  have h := C7_sequential_awaits_amended .verifyA ctxSubmitOk verTrue ctxApprove
  exact ⟨h.1, h.2.1,
    h.2.2 (rolePath "g1" "u1" "vr") (rolePath "g1" "u1" "rr") (by decide)⟩

set_option maxHeartbeats 4000000 in
/-- C1 amended: on a successful upload every variant except two logs
the submission: it issues exactly one update, setting submitted = true
with submitted_at and ai_status and leaving used untouched.  The
part_003 variant instead marks used = true (and no submitted flag),
and the two-message part_002 variant issues no update at all.  In the
interaction handlers every update sets used = true together with
decision approved or denied. -/
theorem C1_token_lifecycle_amended (v : UVariant) (c : UploadCtx)
    (ver : String → String → String → Bool) (ic : InteractionCtx) :
    (v ≠ .p003 → v ≠ .p002B → (runUpload v c).1 = ⟨200, "success"⟩ →
      setsTrue (runUpload v c).2 "submitted" = true ∧
      updatesCol (runUpload v c).2 "submitted_at" = true ∧
      updatesCol (runUpload v c).2 "ai_status" = true ∧
      updatesCol (runUpload v c).2 "used" = false) ∧
    ((part003 c).1 = ⟨200, "success"⟩ →
      setsTrue (part003 c).2 "used" = true ∧
      updatesCol (part003 c).2 "submitted" = false ∧
      updatesCol (part003 c).2 "decision" = false) ∧
    ((part002B c).1 = ⟨200, "success"⟩ →
      (part002B c).2.any Event.isUpdate = false) ∧
    (∀ tbl assigns key, Event.dbUpdate tbl assigns key ∈ (interactionsA ver ic).2 →
      ("used", Val.vb true) ∈ assigns ∧
      (("decision", Val.vs "approved") ∈ assigns ∨
       ("decision", Val.vs "denied") ∈ assigns)) ∧
    (∀ tbl assigns key, Event.dbUpdate tbl assigns key ∈ (part000 ver ic).2 →
      ("used", Val.vb true) ∈ assigns ∧
      (("decision", Val.vs "approved") ∈ assigns ∨
       ("decision", Val.vs "denied") ∈ assigns)) := by
  refine ⟨?_, ?_, ?_, ?_, ?_⟩
  · cases v <;>
      (intro h3 h2B hsucc
       first
         | exact absurd rfl h3
         | exact absurd rfl h2B
         | (simp only [runUpload, verifyA, verifyB, interactionsUpload, part001,
              part002A, part002B, part003, part004A, part004B, part005,
              part006] at hsucc ⊢
            repeat' split at hsucc
            all_goals try simp only [verifyALookup, verifyBLookup, iUploadLookup,
              part001Lookup, part002ALookup, part002BLookup, part003Lookup,
              part004ALookup, part004BLookup, part005Lookup,
              part006Lookup] at hsucc ⊢
            all_goals (repeat' split at hsucc)
            all_goals try simp_all [setsTrue, updatesCol, submitAssigns]
            all_goals (repeat' split)
            all_goals try simp_all [setsTrue, updatesCol, submitAssigns]
            all_goals omega))
  · intro hsucc
    simp only [part003] at hsucc ⊢
    repeat' split at hsucc
    all_goals try simp only [part003Lookup] at hsucc ⊢
    all_goals (repeat' split at hsucc)
    all_goals simp_all [setsTrue, updatesCol]
  · intro hsucc
    simp only [part002B] at hsucc ⊢
    repeat' split at hsucc
    all_goals try simp only [part002BLookup] at hsucc ⊢
    all_goals (repeat' split at hsucc)
    all_goals simp_all [Event.isUpdate]
  · intro tbl assigns key hmem
    simp only [interactionsA] at hmem
    repeat' split at hmem
    all_goals try simp only [interactionsAButtons] at hmem
    all_goals (repeat' split at hmem)
    all_goals simp_all
  · intro tbl assigns key hmem
    simp only [part000] at hmem
    repeat' split at hmem
    all_goals try simp only [part000Buttons] at hmem
    all_goals (repeat' split at hmem)
    all_goals simp_all

/-- Witness for C1 at a concrete successful submission (verifyA),
a concrete part_003 run, a concrete part_002 two-message run, and a
concrete approve update of the first interaction handler. -/
theorem C1_token_lifecycle_witness :
    (setsTrue (runUpload .verifyA ctxSubmitOk).2 "submitted" = true ∧
     updatesCol (runUpload .verifyA ctxSubmitOk).2 "used" = false) ∧
    setsTrue (part003 ctxSubmitOk).2 "used" = true ∧
    (part002B ctxSubmitOk).2.any Event.isUpdate = false ∧
    ("used", Val.vb true) ∈
      ([("used", Val.vb true), ("decision", Val.vs "approved"),
        ("decided_at", Val.vtime), ("decided_by", Val.vs "staff9")] :
        List (String × Val)) := by
  have h := C1_token_lifecycle_amended .verifyA ctxSubmitOk verTrue ctxApprove
  refine ⟨⟨(h.1 (by decide) (by decide) (by decide)).1,
    (h.1 (by decide) (by decide) (by decide)).2.2.2⟩,
    (h.2.1 (by decide)).1, h.2.2.1 (by decide),
    (h.2.2.2.1 "verification_tokens"
      [("used", Val.vb true), ("decision", Val.vs "approved"),
       ("decided_at", Val.vtime), ("decided_by", Val.vs "staff9")]
      "tok1" (by decide)).1⟩

set_option maxHeartbeats 4000000 in
/-- C4 amended: on a successful request every upload variant except
the two-message part_002 variant performs exactly the five steps in
order — multipart parse, token row select, used check, expiry check,
webhook post, row update; the two-message part_002 variant performs
the first four steps and then a second webhook post instead of the
update. -/
theorem C4_five_steps_amended (v : UVariant) (c : UploadCtx) :
    (v ≠ .p002B → (runUpload v c).1 = ⟨200, "success"⟩ →
      (runUpload v c).2.map Event.shape =
        [.parse, .sel, .cu, .ce, .post, .upd]) ∧
    ((part002B c).1 = ⟨200, "success"⟩ →
      (part002B c).2.map Event.shape =
        [.parse, .sel, .cu, .ce, .post, .post]) := by
  constructor
  · cases v <;>
      (intro h2B hsucc
       first
         | exact absurd rfl h2B
         | (simp only [runUpload, verifyA, verifyB, interactionsUpload, part001,
              part002A, part002B, part003, part004A, part004B, part005,
              part006] at hsucc ⊢
            repeat' split at hsucc
            all_goals try simp only [verifyALookup, verifyBLookup, iUploadLookup,
              part001Lookup, part002ALookup, part002BLookup, part003Lookup,
              part004ALookup, part004BLookup, part005Lookup,
              part006Lookup] at hsucc ⊢
            all_goals (repeat' split at hsucc)
            all_goals try simp_all [Event.shape]
            all_goals (repeat' split)
            all_goals try simp_all [Event.shape]
            all_goals omega))
  · intro hsucc
    simp only [part002B] at hsucc ⊢
    repeat' split at hsucc
    all_goals try simp only [part002BLookup] at hsucc ⊢
    all_goals (repeat' split at hsucc)
    all_goals simp_all [Event.shape]

/-- Witness for C4 at concrete successful runs of verifyA and of the
two-message part_002 variant. -/
theorem C4_five_steps_witness :
    (runUpload .verifyA ctxSubmitOk).2.map Event.shape =
      [.parse, .sel, .cu, .ce, .post, .upd] ∧
    (part002B ctxSubmitOk).2.map Event.shape =
      [.parse, .sel, .cu, .ce, .post, .post] := by
  have h1 := C4_five_steps_amended .verifyA ctxSubmitOk
  exact ⟨h1.1 (by decide) (by decide), h1.2 (by decide)⟩

set_option maxHeartbeats 4000000 in
/-- C5 amended: a well-formed upload on a live row whose expires_at
parses to a finite timestamp strictly earlier than now is rejected 400
Token expired with no webhook post and no update, in every variant; a
row whose expires_at does not parse is never rejected as expired; a
row whose expires_at is absent is never rejected as expired except in
the part_003 variant, which coerces the absent value to the epoch and
rejects it as expired whenever the current time is positive. -/
theorem C5_expiry_amended (v : UVariant) (c : UploadCtx) (row : Row) (ms : Int)
    (hm : c.method = "POST") (he : c.envOk = true) (hf : c.fetchOk = true)
    (hp : c.parseErr = false) (ht : truthy c.token = true) (hfp : c.filePresent = true)
    (hsz : ¬ c.fileSize > 4 * 1024 * 1024)
    (hmime : strStarts "image/" (jsOrDefault c.fileMime "image/png") = true)
    (hr : c.row = some row) (hu : row.used = false)
    (hw : truthy row.webhook_url = true) :
    (row.expires_at = some (some ms) → c.now > ms →
      (runUpload v c).1 = ⟨400, "Token expired"⟩ ∧
      (runUpload v c).2.any Event.isWebhook = false ∧
      (runUpload v c).2.any Event.isUpdate = false) ∧
    (row.expires_at = some none → (runUpload v c).1.tag ≠ "Token expired") ∧
    (row.expires_at = none → v ≠ .p003 → (runUpload v c).1.tag ≠ "Token expired") ∧
    (row.expires_at = none → c.now > 0 →
      (part003 c).1 = ⟨400, "Token expired"⟩ ∧
      (part003 c).2.any Event.isWebhook = false ∧
      (part003 c).2.any Event.isUpdate = false) := by
  refine ⟨?_, ?_, ?_, ?_⟩
  · intro hex hnow
    cases v <;>
      simp [runUpload, verifyA, verifyB, interactionsUpload, part001, part002A,
        part002B, part003, part004A, part004B, part005, part006,
        verifyALookup, verifyBLookup, iUploadLookup, part001Lookup,
        part002ALookup, part002BLookup, part003Lookup, part004ALookup,
        part004BLookup, part005Lookup, part006Lookup,
        hm, he, hf, hp, ht, hfp, hsz, hmime, hr, hu, hw, hex, hnow,
        expiredGuarded, expiredUnguarded, Event.isWebhook, Event.isUpdate]
  · intro hex
    cases v <;>
      · simp [runUpload, verifyA, verifyB, interactionsUpload, part001, part002A,
          part002B, part003, part004A, part004B, part005, part006,
          verifyALookup, verifyBLookup, iUploadLookup, part001Lookup,
          part002ALookup, part002BLookup, part003Lookup, part004ALookup,
          part004BLookup, part005Lookup, part006Lookup,
          hm, he, hf, hp, ht, hfp, hsz, hmime, hr, hu, hw, hex,
          expiredGuarded, expiredUnguarded]
        repeat' split
        all_goals simp_all
  · intro hex hv3
    cases v <;>
      first
        | exact absurd rfl hv3
        | (simp [runUpload, verifyA, verifyB, interactionsUpload, part001,
            part002A, part002B, part003, part004A, part004B, part005, part006,
            verifyALookup, verifyBLookup, iUploadLookup, part001Lookup,
            part002ALookup, part002BLookup, part003Lookup, part004ALookup,
            part004BLookup, part005Lookup, part006Lookup,
            hm, he, hf, hp, ht, hfp, hsz, hmime, hr, hu, hw, hex,
            expiredGuarded, expiredUnguarded]
           repeat' split
           all_goals simp_all)
  · intro hex hnow
    simp [part003, part003Lookup, hm, he, hp, ht, hfp, hr, hu, hex, hnow,
      expiredUnguarded, Event.isWebhook, Event.isUpdate]

/-- Witness for C5 at a concrete expired row (verifyA) and the
concrete part_003 run on a null expires_at. -/
theorem C5_expiry_witness :
    (runUpload .verifyA ctxExpired).1 = ⟨400, "Token expired"⟩ ∧
    (runUpload .verifyA ctxExpired).2.any Event.isWebhook = false ∧
    (part003 ctxNullExpiry).1 = ⟨400, "Token expired"⟩ := by
  have h1 := C5_expiry_amended .verifyA ctxExpired
    { user_id := some "u1", webhook_url := some "https://h/w",
      expires_at := some (some 1000), used := false } 1000
    rfl rfl rfl rfl (by decide) rfl (by decide) (by decide) rfl rfl (by decide)
  have h2 := C5_expiry_amended .p003 ctxNullExpiry
    { user_id := some "u1", webhook_url := some "https://h/w",
      expires_at := none, used := false } 0
    rfl rfl rfl rfl (by decide) rfl (by decide) (by decide) rfl rfl (by decide)
  exact ⟨(h1.1 rfl (by decide)).1, (h1.1 rfl (by decide)).2.1,
    (h2.2.2.2 rfl (by decide)).1⟩

end Stoney
